import Mathlib

/-!
Verification of the bridge selector `get_bridge` in
`src/python/bridge/debug_bridge.py` and of the bridge capability state
machine it hands out.  The selector body is embedded directly from the
source; the chip-bridge constructors and the capability operations live in
`bridge.default_debug_bridge` and `bridge.chips.*`, which are not part of
the visible sources, so those are modelled from the specification and
marked as such in their doc comments.
-/

namespace DebugBridge

/-- Python exception kinds the embedded selector body can raise.
`list(...)[0]` on an empty list raises `IndexError`. -/
inductive PyError
  | IndexError
  deriving DecidableEq, Repr

/-- The four classes the `if/elif` chain of `get_bridge` can pick:
three chip-specific bridge classes and the generic `debug_bridge`. -/
inductive BridgeClass
  | gap_debug_bridge
  | fulmine_debug_bridge
  | wolfe_debug_bridge
  | debug_bridge
  deriving DecidableEq, Repr

/-- States of the bridge capability state machine (spec section 4.3):
`Unattached → Attached(Stopped|Running) → Detached`. -/
inductive BState
  | Unattached
  | Stopped
  | Running
  | Detached
  deriving DecidableEq, Repr

/-- One binary image: load address, byte image, entry point. -/
structure Image where
  addr : Nat
  data : List Nat
  entry : Nat
  deriving DecidableEq, Repr

/-- The part of the configuration tree the program reads.
`pulp_chip_names` is the list of `name` field values of the nodes matched
by `config.get('**/pulp_chip').get_items().values()`, in order.
`mem_bound` and `declared_regs` are the target-specific parameters of the
spec's BridgeConfiguration (memory map bound, declared register set) that
the modelled capability operations consult; `get_bridge` itself never
reads them. -/
structure Config where
  pulp_chip_names : List String
  mem_bound : Nat
  declared_regs : List Nat
  deriving DecidableEq, Repr

/-- A constructed bridge object: the class that was instantiated, the
three constructor arguments it stored, and its state-machine state. -/
structure BridgeObj where
  cls : BridgeClass
  config : Config
  binaries : List Image
  verbose : Bool
  state : BState
  deriving DecidableEq, Repr

/-- Modelled from the spec: the bridge class constructors
(`debug_bridge(config=..., binaries=..., verbose=...)` and the chip
subclasses, defined in `bridge.default_debug_bridge` and
`bridge.chips.*`, which are not among the visible sources) store the
three keyword arguments and produce a handle that is constructed
unattached (spec section 3, BridgeHandle lifecycle). -/
def make_bridge (cls : BridgeClass) (config : Config) (binaries : List Image)
    (verbose : Bool) : BridgeObj :=
  { cls := cls, config := config, binaries := binaries, verbose := verbose,
    state := BState.Unattached }

/-- The `if/elif/else` chain of `get_bridge` on the extracted chip name. -/
def select_class (chip : String) : BridgeClass :=
  if chip = "gap" then BridgeClass.gap_debug_bridge
  else if chip = "fulmine" then BridgeClass.fulmine_debug_bridge
  else if chip = "wolfe" then BridgeClass.wolfe_debug_bridge
  else BridgeClass.debug_bridge

/-- Shallow embedding of `get_bridge(config, binaries, verbose)`
(src/python/bridge/debug_bridge.py, lines 25-40).
`list(config.get('**/pulp_chip').get_items().values())[0]` raises
`IndexError` when no node matches and otherwise takes the first matched
node, whatever the number of matches; `.get('name').get()` yields that
node's chip name; the `if/elif` chain selects the class, which is then
called once with the three received arguments. -/
def get_bridge (config : Config) (binaries : List Image) (verbose : Bool) :
    Except PyError BridgeObj :=
  match config.pulp_chip_names with
  | [] => Except.error PyError.IndexError
  | chip :: _ =>
      Except.ok (make_bridge (select_class chip) config binaries verbose)

/-- Embedding of the definition line `def get_bridge(config, binaries=[],
verbose=False)` as seen from a call site: an omitted argument takes the
default value written on the definition line. -/
def get_bridge_call (config : Config) (binariesArg : Option (List Image))
    (verboseArg : Option Bool) : Except PyError BridgeObj :=
  get_bridge config (binariesArg.getD []) (verboseArg.getD false)

/-! Reference-level model of the `binaries=[]` default.  Python evaluates
a default argument expression once, when the `def` statement runs, so all
calls that omit `binaries` receive one and the same list object.  We model
list objects as references into a heap. -/

/-- A reference to a Python list object. -/
abbrev Ref := Nat

/-- A heap mapping list references to list contents. -/
abbrev Heap := Ref → List Image

/-- The single list object created when Python evaluates `binaries=[]` at
function definition time. -/
def default_binaries_ref : Ref := 0

/-- Writing a list object in place: `heap_write h r l` is the heap after
the list at reference `r` has been mutated to hold `l`. -/
def heap_write (h : Heap) (r : Ref) (l : List Image) : Heap :=
  fun r2 => if r2 = r then l else h r2

/-- A constructed bridge in the reference-level model: it stores the
reference of the list object it was given as `binaries`. -/
structure BridgeRef where
  cls : BridgeClass
  binaries_ref : Ref
  verbose : Bool
  deriving DecidableEq, Repr

/-- `get_bridge` at reference level: a call that omits `binaries`
(`binariesArg = none`) receives `default_binaries_ref`, the one list
object created when the `def` statement ran; a call that passes a list
passes its reference through unchanged. -/
def get_bridge_ref (config : Config) (binariesArg : Option Ref)
    (verbose : Bool) : Except PyError BridgeRef :=
  match config.pulp_chip_names with
  | [] => Except.error PyError.IndexError
  | chip :: _ =>
      Except.ok { cls := select_class chip,
                  binaries_ref := binariesArg.getD default_binaries_ref,
                  verbose := verbose }

/-! The bridge capability contract (spec section 4.3).  The Python
implementation lives in `bridge.default_debug_bridge` and the chip
subclasses, which are not among the visible sources, so each operation
below is modelled from the specification text. -/

/-- Error kinds of the capability contract that the modelled operations
can produce (spec section 7).  Transport and protocol failures are
external hardware faults and are not modelled. -/
inductive DebugError
  | InvalidStateError
  | OutOfRangeError
  | UnknownRegisterError
  deriving DecidableEq, Repr

/-- Modelled from the spec: `attach()` takes `Unattached` to
`Attached/Stopped` (spec section 4.3); in any other state attachment is
not a specified transition and is rejected as an invalid-state use. -/
def attach (b : BridgeObj) : Except DebugError BridgeObj :=
  match b.state with
  | BState.Unattached => Except.ok { b with state := BState.Stopped }
  | _ => Except.error DebugError.InvalidStateError

/-- Modelled from the spec: `detach()` takes any state to the terminal
`Detached` state and is idempotent — the second call is a no-op that also
succeeds (spec section 4.3). -/
def detach (b : BridgeObj) : Except DebugError BridgeObj :=
  Except.ok { b with state := BState.Detached }

/-- Modelled from the spec: `run()` takes `Stopped` to `Running`, succeeds
trivially with no effect when already `Running`, and is invalid before
`attach()` or after `detach()` (spec section 4.3). -/
def run (b : BridgeObj) : Except DebugError BridgeObj :=
  match b.state with
  | BState.Stopped => Except.ok { b with state := BState.Running }
  | BState.Running => Except.ok b
  | _ => Except.error DebugError.InvalidStateError

/-- Modelled from the spec: `stop()` takes `Running` to `Stopped`, succeeds
trivially with no effect when already `Stopped`, and is invalid before
`attach()` or after `detach()` (spec section 4.3). -/
def stop (b : BridgeObj) : Except DebugError BridgeObj :=
  match b.state with
  | BState.Running => Except.ok { b with state := BState.Stopped }
  | BState.Stopped => Except.ok b
  | _ => Except.error DebugError.InvalidStateError

/-- Modelled from the spec: `step()` is valid only in `Stopped`, executes
one instruction and remains `Stopped`; anywhere else it fails with
`InvalidStateError` (spec section 4.3). -/
def step (b : BridgeObj) : Except DebugError BridgeObj :=
  match b.state with
  | BState.Stopped => Except.ok b
  | _ => Except.error DebugError.InvalidStateError

/-- Modelled from the spec: `read_memory(addr, len)` is valid in any
attached state and invalid before `attach()` or after `detach()`
(spec section 4.3; the generic contract, without per-chip
halt-before-access restrictions). -/
def read_memory (b : BridgeObj) (addr len : Nat) : Except DebugError BridgeObj :=
  match b.state with
  | BState.Stopped => Except.ok b
  | BState.Running => Except.ok b
  | _ => Except.error DebugError.InvalidStateError

/-- Modelled from the spec: `write_memory(addr, bytes)` has the same state
rules as `read_memory` (spec section 4.3). -/
def write_memory (b : BridgeObj) (addr : Nat) (data : List Nat) :
    Except DebugError BridgeObj :=
  match b.state with
  | BState.Stopped => Except.ok b
  | BState.Running => Except.ok b
  | _ => Except.error DebugError.InvalidStateError

/-- Modelled from the spec: `read_register(id)` has the state rules of the
memory accesses and additionally validates the register id against the
chip's declared register set, failing with `UnknownRegisterError`
otherwise (spec section 4.3). -/
def read_register (b : BridgeObj) (rid : Nat) : Except DebugError BridgeObj :=
  match b.state with
  | BState.Stopped =>
      if rid ∈ b.config.declared_regs then Except.ok b
      else Except.error DebugError.UnknownRegisterError
  | BState.Running =>
      if rid ∈ b.config.declared_regs then Except.ok b
      else Except.error DebugError.UnknownRegisterError
  | _ => Except.error DebugError.InvalidStateError

/-- Modelled from the spec: `write_register(id, value)` has the same rules
as `read_register` (spec section 4.3). -/
def write_register (b : BridgeObj) (rid value : Nat) :
    Except DebugError BridgeObj :=
  match b.state with
  | BState.Stopped =>
      if rid ∈ b.config.declared_regs then Except.ok b
      else Except.error DebugError.UnknownRegisterError
  | BState.Running =>
      if rid ∈ b.config.declared_regs then Except.ok b
      else Except.error DebugError.UnknownRegisterError
  | _ => Except.error DebugError.InvalidStateError

/-- One write streamed over the transport: target address and bytes. -/
abbrev TransportWrite := Nat × List Nat

/-- Whether an image's address range fits inside the declared memory
bound. -/
def image_in_range (bound : Nat) (img : Image) : Bool :=
  decide (img.addr + img.data.length ≤ bound)

/-- Modelled from the spec: the per-image loop of `load` — for each image,
first validate the address range against the chip memory map, then stream
the bytes to target memory; the first image that does not fit aborts the
loop with `OutOfRangeError` and no transport writes are performed for that
image; writes already performed for earlier images stay in place (spec
sections 4.3 and 7).  Returns the transport writes performed and the
error, if any. -/
def load_images (bound : Nat) : List Image → List TransportWrite × Option DebugError
  | [] => ([], none)
  | img :: rest =>
      if image_in_range bound img then
        let r := load_images bound rest
        ((img.addr, img.data) :: r.1, r.2)
      else
        ([], some DebugError.OutOfRangeError)

/-- Modelled from the spec: `load(binaries)` is valid only in an attached
state; it runs the per-image validate-then-stream loop against the chip's
declared memory bound (spec section 4.3).  Returns the transport writes
performed and the outcome. -/
def load (b : BridgeObj) (imgs : List Image) :
    List TransportWrite × Except DebugError BridgeObj :=
  match b.state with
  | BState.Stopped =>
      match load_images b.config.mem_bound imgs with
      | (tr, none) => (tr, Except.ok b)
      | (tr, some e) => (tr, Except.error e)
  | BState.Running =>
      match load_images b.config.mem_bound imgs with
      | (tr, none) => (tr, Except.ok b)
      | (tr, some e) => (tr, Except.error e)
  | _ => ([], Except.error DebugError.InvalidStateError)

/-- The capability operations of the contract (everything except `attach`
and `detach`), as one syntactic class so that claims can quantify over
"any capability operation". -/
inductive CapOp
  | runOp
  | stopOp
  | stepOp
  | loadOp (imgs : List Image)
  | readMemOp (addr len : Nat)
  | writeMemOp (addr : Nat) (data : List Nat)
  | readRegOp (rid : Nat)
  | writeRegOp (rid value : Nat)
  deriving DecidableEq, Repr

/-- Dispatch a capability operation to its modelled implementation,
keeping only the state outcome. -/
def exec_cap (b : BridgeObj) : CapOp → Except DebugError BridgeObj
  | CapOp.runOp => run b
  | CapOp.stopOp => stop b
  | CapOp.stepOp => step b
  | CapOp.loadOp imgs => (load b imgs).2
  | CapOp.readMemOp a l => read_memory b a l
  | CapOp.writeMemOp a d => write_memory b a d
  | CapOp.readRegOp r => read_register b r
  | CapOp.writeRegOp r v => write_register b r v

/-! Sample data used by the concrete witnesses. -/

/-- Sample configuration declaring chip "gap". -/
def gap_config : Config :=
  { pulp_chip_names := ["gap"], mem_bound := 0x2000, declared_regs := [0, 1] }

/-- Sample configuration declaring chip "wolfe". -/
def wolfe_config : Config :=
  { pulp_chip_names := ["wolfe"], mem_bound := 0x2000, declared_regs := [] }

/-- Sample configuration in which two nodes match the chip-identity
pattern. -/
def two_chip_config : Config :=
  { pulp_chip_names := ["gap", "wolfe"], mem_bound := 0x2000, declared_regs := [] }

/-- Sample configuration in which no node matches the chip-identity
pattern. -/
def no_chip_config : Config :=
  { pulp_chip_names := [], mem_bound := 0x2000, declared_regs := [] }

/-- Sample configuration declaring chip "gap" twice. -/
def gap_extra_config : Config :=
  { pulp_chip_names := ["gap", "gap"], mem_bound := 0x1000, declared_regs := [] }

/-- A freshly constructed, unattached bridge. -/
def unattached_bridge : BridgeObj :=
  make_bridge BridgeClass.debug_bridge gap_config [] false

/-- The sample bridge after `attach()`: attached and `Stopped`. -/
def stopped_bridge : BridgeObj :=
  { unattached_bridge with state := BState.Stopped }

/-- The sample bridge while `Running`. -/
def running_bridge : BridgeObj :=
  { unattached_bridge with state := BState.Running }

/-- A 64-byte image at 0x5000, outside the sample bound 0x2000. -/
def big_image : Image :=
  { addr := 0x5000, data := List.replicate 64 0, entry := 0x5000 }

/-- C1: once a chip name has been extracted (the pattern matched at least
one node), `get_bridge` always returns a bridge; the names "gap",
"fulmine" and "wolfe" select the correspondingly named chip-specific
class and every other name selects the generic `debug_bridge` class. -/
theorem get_bridge_resolution_total (config : Config) (binaries : List Image)
    (verbose : Bool) (chip : String) (rest : List String)
    (hc : config.pulp_chip_names = chip :: rest) :
    ∃ br : BridgeObj, get_bridge config binaries verbose = Except.ok br ∧
      br.cls = select_class chip ∧
      (chip = "gap" → br.cls = BridgeClass.gap_debug_bridge) ∧
      (chip = "fulmine" → br.cls = BridgeClass.fulmine_debug_bridge) ∧
      (chip = "wolfe" → br.cls = BridgeClass.wolfe_debug_bridge) ∧
      (chip ≠ "gap" → chip ≠ "fulmine" → chip ≠ "wolfe" →
        br.cls = BridgeClass.debug_bridge) := by
  refine ⟨make_bridge (select_class chip) config binaries verbose, ?_, rfl,
    ?_, ?_, ?_, ?_⟩
  · simp [get_bridge, hc]
  · intro h; simp [make_bridge, select_class, h]
  · intro h; simp [make_bridge, select_class, h]
  · intro h; simp [make_bridge, select_class, h]
  · intro h1 h2 h3; simp [make_bridge, select_class, h1, h2, h3]

/-- Witness for C1 at the configuration declaring chip "gap": the
returned bridge is an instance of the gap-specific class. -/
theorem get_bridge_resolution_total_witness :
    (get_bridge gap_config [] false).map BridgeObj.cls =
      Except.ok BridgeClass.gap_debug_bridge := by
  obtain ⟨br, h1, _, h3, _⟩ :=
    get_bridge_resolution_total gap_config [] false "gap" [] rfl
  rw [h1]
  simp [Except.map, h3 rfl]

/-- C2 counterexample: on a configuration in which two nodes match the
chip-identity pattern, `get_bridge` does not fail with any error — it
returns a bridge built from the first matched node. -/
theorem get_bridge_two_nodes_returns_bridge :
    get_bridge two_chip_config [] false =
      Except.ok (make_bridge BridgeClass.gap_debug_bridge two_chip_config [] false) := by
  simp [get_bridge, two_chip_config, make_bridge, select_class]

/-- C2 (amended): with zero matching nodes `get_bridge` raises
`IndexError` (the code has no `ConfigurationError`); with one or more
matching nodes it never fails: matches beyond the first are silently
ignored, and an empty chip name selects the generic `debug_bridge` class
without error. -/
theorem get_bridge_error_behaviour (config : Config) (binaries : List Image)
    (verbose : Bool) :
    (config.pulp_chip_names = [] →
      get_bridge config binaries verbose = Except.error PyError.IndexError) ∧
    (∀ chip rest, config.pulp_chip_names = chip :: rest →
      get_bridge config binaries verbose =
        Except.ok (make_bridge (select_class chip) config binaries verbose)) ∧
    (∀ rest, config.pulp_chip_names = "" :: rest →
      get_bridge config binaries verbose =
        Except.ok (make_bridge BridgeClass.debug_bridge config binaries verbose)) := by
  refine ⟨?_, ?_, ?_⟩
  · intro h; simp [get_bridge, h]
  · intro chip rest h; simp [get_bridge, h]
  · intro rest h; simp [get_bridge, h]; rfl

/-- Witness for the amended C2 at the configuration with no matching
node. -/
theorem get_bridge_error_behaviour_witness :
    get_bridge no_chip_config [] false = Except.error PyError.IndexError :=
  (get_bridge_error_behaviour no_chip_config [] false).1 rfl

/-- C3: which class is selected depends only on the extracted chip name:
two calls whose configurations yield the same first matched chip name
select the same class, whatever the binaries and verbose arguments. -/
theorem select_depends_only_on_chip (c1 c2 : Config) (b1 b2 : List Image)
    (v1 v2 : Bool)
    (h : c1.pulp_chip_names.head? = c2.pulp_chip_names.head?) :
    (get_bridge c1 b1 v1).map BridgeObj.cls =
      (get_bridge c2 b2 v2).map BridgeObj.cls := by
  cases hc1 : c1.pulp_chip_names with
  | nil =>
      cases hc2 : c2.pulp_chip_names with
      | nil => simp [get_bridge, hc1, hc2]
      | cons y ys => rw [hc1, hc2] at h; simp at h
  | cons x xs =>
      cases hc2 : c2.pulp_chip_names with
      | nil => rw [hc1, hc2] at h; simp at h
      | cons y ys =>
          rw [hc1, hc2] at h
          simp only [List.head?] at h
          injection h with h
          simp [get_bridge, hc1, hc2, make_bridge, h, Except.map]

/-- Witness for C3: the same chip name with different binaries and
verbose flags selects the same class. -/
theorem select_depends_only_on_chip_witness :
    (get_bridge gap_config [] false).map BridgeObj.cls =
      (get_bridge gap_extra_config [big_image] true).map BridgeObj.cls :=
  select_depends_only_on_chip gap_config gap_extra_config [] [big_image]
    false true rfl

/-- C4: after the chip name has been extracted, `get_bridge` returns
exactly the object produced by one call of the selected class, with the
three received arguments stored unchanged, and the object is constructed
unattached. -/
theorem get_bridge_passes_arguments (config : Config) (binaries : List Image)
    (verbose : Bool) (chip : String) (rest : List String)
    (hc : config.pulp_chip_names = chip :: rest) :
    get_bridge config binaries verbose =
      Except.ok (make_bridge (select_class chip) config binaries verbose) ∧
    (make_bridge (select_class chip) config binaries verbose).config = config ∧
    (make_bridge (select_class chip) config binaries verbose).binaries = binaries ∧
    (make_bridge (select_class chip) config binaries verbose).verbose = verbose ∧
    (make_bridge (select_class chip) config binaries verbose).state =
      BState.Unattached := by
  refine ⟨?_, rfl, rfl, rfl, rfl⟩
  simp [get_bridge, hc]

/-- Witness for C4 at the configuration declaring chip "wolfe". -/
theorem get_bridge_passes_arguments_witness :
    get_bridge wolfe_config [big_image] true =
      Except.ok (make_bridge (select_class "wolfe") wolfe_config [big_image] true) ∧
    (make_bridge (select_class "wolfe") wolfe_config [big_image] true).config =
      wolfe_config ∧
    (make_bridge (select_class "wolfe") wolfe_config [big_image] true).binaries =
      [big_image] ∧
    (make_bridge (select_class "wolfe") wolfe_config [big_image] true).verbose =
      true ∧
    (make_bridge (select_class "wolfe") wolfe_config [big_image] true).state =
      BState.Unattached :=
  get_bridge_passes_arguments wolfe_config [big_image] true "wolfe" [] rfl

/-- C5: a call that omits `binaries` behaves as one passing the empty
list, and a call that omits `verbose` behaves as one passing `false`, as
written on the definition line `def get_bridge(config, binaries=[],
verbose=False)`. -/
theorem get_bridge_default_values (config : Config) :
    get_bridge_call config none none = get_bridge config [] false ∧
    (∀ bs, get_bridge_call config (some bs) none = get_bridge config bs false) ∧
    (∀ v, get_bridge_call config none (some v) = get_bridge config [] v) :=
  ⟨rfl, fun _ => rfl, fun _ => rfl⟩

/-- C9: chip matching is an exact, case-sensitive string comparison: any
name different from the three supported ones — including a name differing
only in letter case or whitespace — selects the generic class. -/
theorem select_class_exact_match (chip : String)
    (h1 : chip ≠ "gap") (h2 : chip ≠ "fulmine") (h3 : chip ≠ "wolfe") :
    select_class chip = BridgeClass.debug_bridge ∧
    select_class "GAP" = BridgeClass.debug_bridge ∧
    select_class "gap " = BridgeClass.debug_bridge ∧
    select_class "Wolfe" = BridgeClass.debug_bridge := by
  refine ⟨?_, by decide, by decide, by decide⟩
  simp [select_class, h1, h2, h3]

/-- Witness for C9 at the upper-case name "GAP". -/
theorem select_class_exact_match_witness :
    select_class "GAP" = BridgeClass.debug_bridge ∧
    select_class "GAP" = BridgeClass.debug_bridge ∧
    select_class "gap " = BridgeClass.debug_bridge ∧
    select_class "Wolfe" = BridgeClass.debug_bridge :=
  select_class_exact_match "GAP" (by decide) (by decide) (by decide)

/-- C10: every call that omits `binaries` receives the same default list
object, so an in-place mutation of that object is observed through any
bridge constructed by another default call. -/
theorem default_binaries_shared (c1 c2 : Config) (v1 v2 : Bool)
    (br1 br2 : BridgeRef)
    (h1 : get_bridge_ref c1 none v1 = Except.ok br1)
    (h2 : get_bridge_ref c2 none v2 = Except.ok br2) :
    br1.binaries_ref = br2.binaries_ref ∧
    ∀ (h : Heap) (l : List Image),
      heap_write h br1.binaries_ref l br2.binaries_ref = l := by
  have e1 : br1.binaries_ref = default_binaries_ref := by
    cases hc : c1.pulp_chip_names with
    | nil => simp [get_bridge_ref, hc] at h1
    | cons x xs =>
        simp [get_bridge_ref, hc] at h1
        rw [← h1]
  have e2 : br2.binaries_ref = default_binaries_ref := by
    cases hc : c2.pulp_chip_names with
    | nil => simp [get_bridge_ref, hc] at h2
    | cons x xs =>
        simp [get_bridge_ref, hc] at h2
        rw [← h2]
  refine ⟨e1.trans e2.symm, ?_⟩
  intro h l
  rw [e1, e2]
  simp [heap_write]

/-- Witness for C10: two concrete default calls share the default list
object and a mutation through the first is read back through the second. -/
theorem default_binaries_shared_witness :
    (BridgeRef.mk BridgeClass.gap_debug_bridge default_binaries_ref
        false).binaries_ref =
      (BridgeRef.mk BridgeClass.wolfe_debug_bridge default_binaries_ref
        true).binaries_ref ∧
    heap_write (fun _ => [])
        (BridgeRef.mk BridgeClass.gap_debug_bridge default_binaries_ref
          false).binaries_ref [big_image]
        (BridgeRef.mk BridgeClass.wolfe_debug_bridge default_binaries_ref
          true).binaries_ref = [big_image] :=
  ⟨(default_binaries_shared gap_config wolfe_config false true _ _ rfl rfl).1,
   (default_binaries_shared gap_config wolfe_config false true _ _ rfl rfl).2
     (fun _ => []) [big_image]⟩

/-- C6: every capability operation invoked before `attach()` has succeeded
or after `detach()` fails with `InvalidStateError`; `detach` itself always
succeeds, and calling it a second time succeeds with no further effect. -/
theorem cap_ops_need_attachment (b : BridgeObj) (op : CapOp)
    (h : b.state = BState.Unattached ∨ b.state = BState.Detached) :
    exec_cap b op = Except.error DebugError.InvalidStateError ∧
    detach b = Except.ok { b with state := BState.Detached } ∧
    exec_cap { b with state := BState.Detached } op =
      Except.error DebugError.InvalidStateError ∧
    detach { b with state := BState.Detached } =
      Except.ok { b with state := BState.Detached } := by
  refine ⟨?_, rfl, ?_, rfl⟩
  · rcases h with h | h <;>
      cases op <;>
        simp [exec_cap, run, stop, step, load, read_memory, write_memory,
          read_register, write_register, h]
  · cases op <;>
      simp [exec_cap, run, stop, step, load, read_memory, write_memory,
        read_register, write_register]

/-- Witness for C6: a run request on a freshly constructed bridge fails
with `InvalidStateError`, and detach is idempotent on it. -/
theorem cap_ops_need_attachment_witness :
    exec_cap unattached_bridge CapOp.runOp =
      Except.error DebugError.InvalidStateError ∧
    detach unattached_bridge =
      Except.ok { unattached_bridge with state := BState.Detached } ∧
    exec_cap { unattached_bridge with state := BState.Detached } CapOp.runOp =
      Except.error DebugError.InvalidStateError ∧
    detach { unattached_bridge with state := BState.Detached } =
      Except.ok { unattached_bridge with state := BState.Detached } :=
  cap_ops_need_attachment unattached_bridge CapOp.runOp (Or.inl rfl)

/-- Helper for C7: when some image of the list is out of range, the load
loop reports `OutOfRangeError` and the transport writes performed are
exactly those of the maximal in-range prefix of the list. -/
theorem load_images_out_of_range (bound : Nat) (imgs : List Image)
    (hbad : ∃ img ∈ imgs, image_in_range bound img = false) :
    (load_images bound imgs).2 = some DebugError.OutOfRangeError ∧
    (load_images bound imgs).1 =
      (imgs.takeWhile (image_in_range bound)).map (fun i => (i.addr, i.data)) := by
  induction imgs with
  | nil => simp at hbad
  | cons img rest ih =>
      cases hi : image_in_range bound img with
      | false => simp [load_images, hi, List.takeWhile_cons, List.map]
      | true =>
          obtain ⟨img2, hm, hb⟩ := hbad
          rcases List.mem_cons.mp hm with heq | hm2
          · rw [heq] at hb; rw [hi] at hb; cases hb
          · have hr := ih ⟨img2, hm2, hb⟩
            simp [load_images, hi, List.takeWhile_cons, hr.1, hr.2]

/-- C7: on an attached bridge, a load whose image list contains an image
exceeding the declared memory bound fails with `OutOfRangeError`, and no
transport write carries the address and bytes of any out-of-range image:
the bounds check precedes the writes of each image. -/
theorem load_checks_bounds_first (b : BridgeObj) (imgs : List Image)
    (hatt : b.state = BState.Stopped ∨ b.state = BState.Running)
    (hbad : ∃ img ∈ imgs, image_in_range b.config.mem_bound img = false) :
    (load b imgs).2 = Except.error DebugError.OutOfRangeError ∧
    ∀ img ∈ imgs, image_in_range b.config.mem_bound img = false →
      (img.addr, img.data) ∉ (load b imgs).1 := by
  have hl := load_images_out_of_range b.config.mem_bound imgs hbad
  have hr : load_images b.config.mem_bound imgs =
      ((imgs.takeWhile (image_in_range b.config.mem_bound)).map
        (fun i => (i.addr, i.data)), some DebugError.OutOfRangeError) := by
    rw [← hl.1, ← hl.2]
  have hload : load b imgs =
      ((imgs.takeWhile (image_in_range b.config.mem_bound)).map
        (fun i => (i.addr, i.data)), Except.error DebugError.OutOfRangeError) := by
    rcases hatt with h | h <;> simp [load, h, hr]
  refine ⟨by rw [hload], ?_⟩
  intro img _ hb hmem
  rw [hload] at hmem
  simp only [List.mem_map] at hmem
  obtain ⟨i, hi, he⟩ := hmem
  have hip : image_in_range b.config.mem_bound i = true :=
    List.mem_takeWhile_imp hi
  have ha : i.addr = img.addr := congrArg Prod.fst he
  have hd : i.data = img.data := congrArg Prod.snd he
  rw [image_in_range, ha, hd] at hip
  rw [image_in_range] at hb
  rw [hip] at hb
  cases hb

/-- Witness for C7: on the attached sample bridge with bound 0x2000, a
64-byte image at 0x5000 makes load fail with `OutOfRangeError` with no
transport write for that image. -/
theorem load_checks_bounds_first_witness :
    (load stopped_bridge [big_image]).2 =
      Except.error DebugError.OutOfRangeError ∧
    (big_image.addr, big_image.data) ∉ (load stopped_bridge [big_image]).1 :=
  ⟨(load_checks_bounds_first stopped_bridge [big_image] (Or.inl rfl)
      ⟨big_image, List.mem_singleton_self big_image, rfl⟩).1,
   (load_checks_bounds_first stopped_bridge [big_image] (Or.inl rfl)
      ⟨big_image, List.mem_singleton_self big_image, rfl⟩).2
     big_image (List.mem_singleton_self big_image) rfl⟩

/-- C8: `run()` while already `Running` and `stop()` while already
`Stopped` succeed trivially with no effect, and chaining the same
transition twice equals doing it once, in every state. -/
theorem run_stop_idempotent (b : BridgeObj) :
    (b.state = BState.Running → run b = Except.ok b) ∧
    (b.state = BState.Stopped → stop b = Except.ok b) ∧
    Except.bind (run b) run = run b ∧
    Except.bind (stop b) stop = stop b := by
  refine ⟨?_, ?_, ?_, ?_⟩
  · intro h; simp [run, h]
  · intro h; simp [stop, h]
  · cases h : b.state <;> simp [run, h, Except.bind]
  · cases h : b.state <;> simp [stop, h, Except.bind]

/-- Witness for C8: run on the running sample bridge and stop on the
stopped sample bridge are no-ops. -/
theorem run_stop_idempotent_witness :
    run running_bridge = Except.ok running_bridge ∧
    stop stopped_bridge = Except.ok stopped_bridge :=
  ⟨(run_stop_idempotent running_bridge).1 rfl,
   (run_stop_idempotent stopped_bridge).2.1 rfl⟩

end DebugBridge
